import Mathlib

/-!
Verification of the serial-bridge / workspace backend (`backend/server.py`).

The Python source is shallowly embedded: pure string manipulations become
Lean functions on `String` / `List Char`; the WebSocket serial session
becomes a trace-producing function over an explicit environment describing
the outcomes of the external effects (executable lookup, process spawn,
poll results, socket receives); the workspace filesystem becomes a
`String → Option String` store.  Machine-level concerns (actual OS pipes,
real time) are abstracted into boolean/option fields of the environment.
-/

namespace ArduinoBackend

/-! ## Python string primitives

`str.strip` / `str.rstrip` with no argument remove whitespace characters;
for the ASCII range that is space, tab, LF, CR, VT (11) and FF (12). -/

def pyIsSpace (c : Char) : Bool :=
  c = ' ' || c = '\t' || c = '\n' || c = '\r' || c = Char.ofNat 11 || c = Char.ofNat 12

/-- Python `s.strip()`: drop leading and trailing whitespace. -/
def pyStrip (s : String) : String :=
  String.mk (((s.data.dropWhile pyIsSpace).reverse.dropWhile pyIsSpace).reverse)

/-- Python `s.rstrip()`: drop trailing whitespace only. -/
def pyRstrip (s : String) : String :=
  String.mk ((s.data.reverse.dropWhile pyIsSpace).reverse)

/-- Universal-newlines translation applied by Python text-mode reads with
`newline=None` (`Path.read_text`, `open(..., 'r')`): every `"\r\n"` pair and
every lone `"\r"` becomes `"\n"`. -/
def univNL : List Char → List Char
  | [] => []
  | [c] => [if c = '\r' then '\n' else c]
  | c :: d :: rest =>
    if c = '\r' then
      if d = '\n' then '\n' :: univNL rest
      else '\n' :: univNL (d :: rest)
    else c :: univNL (d :: rest)

def pyUniversalNewlines (s : String) : String := String.mk (univNL s.data)

/-- Whether a string contains a carriage-return character. -/
def hasCR (s : String) : Bool := s.data.contains '\r'

theorem univNL_eq_self_iff (l : List Char) : univNL l = l ↔ '\r' ∉ l := by
  induction l using univNL.induct with
  | case1 => simp [univNL]
  | case2 c =>
    by_cases hc : c = '\r'
    · subst hc; decide
    · simp [univNL, hc, Ne.symm hc]
  | case3 rest ih => simp [univNL]
  | case4 d rest hd ih => simp [univNL, hd]
  | case5 c d rest hc ih => simp [univNL, hc, ih, Ne.symm hc]

theorem pyUniversalNewlines_eq_self_iff (s : String) :
    pyUniversalNewlines s = s ↔ hasCR s = false := by
  cases s with
  | mk l =>
    simp only [pyUniversalNewlines, hasCR, String.ext_iff]
    rw [univNL_eq_self_iff]
    simp [List.contains_eq_any_beq]

/-! ## Serial bridge: the stdout reader task

`read_stdout` (server.py lines 618–626) loops `while process.poll() is None`,
reads a line, and if it is nonempty sends `line.strip()` to the socket.
Each iteration is modelled by a pair `(exited, line)`: the result of the
poll at the top of the iteration and the line `readline` returned
(`""` means end-of-stream, which sends nothing). -/

def read_stdout : List (Bool × String) → List String
  | [] => []
  | (exited, line) :: rest =>
    if exited then []
    else (if line.isEmpty then [] else [pyStrip line]) ++ read_stdout rest

/-! ## Serial bridge: the WebSocket session (`serial_websocket`, lines 561–701)

The handler's observable actions form a trace of events.  Sends through
`manager.send_personal_message` are modelled as atomic: the frame is
delivered when the `await` starts, before control can pass to the stdout
reader task created at line 629 (cooperative asyncio scheduling, where a
task created by `create_task` first runs when the parent suspends).
Frames produced by the reader task are therefore interleaved into the
main-loop portion of the trace, one batch per loop iteration. -/

inductive Event
  | frame (s : String)       -- bridge-synthesized diagnostic frame sent to the socket
  | outFrame (s : String)    -- frame carrying a line of subprocess stdout
  | spawnProc (cmd : List String) -- subprocess.Popen of the monitor command
  | stdinWrite (s : String)  -- process.stdin.write followed by flush
  | terminate                -- process.terminate() with wait(timeout=2)
  | kill                     -- process.kill()
  | disconnect               -- manager.disconnect(websocket)
deriving DecidableEq

/-- Outcome of `asyncio.wait_for(websocket.receive_text(), timeout=0.1)`. -/
inductive Recv
  | timeout                  -- asyncio.TimeoutError: continue
  | dataMsg (s : String)     -- a text frame was received
  | disconnectEvt            -- WebSocketDisconnect
  | exc (msg : String)       -- any other exception
deriving DecidableEq

/-- One iteration of the main `while True` loop (lines 644–676).
`stdoutLines` are the lines the reader task delivers during the iteration;
`pollTop` / `pollAtWrite` are the results of `process.poll() is not None`
at the top of the loop and at the inner send check; `writeErr` is an
exception raised by `stdin.write`/`flush`, if any. -/
structure LoopStep where
  stdoutLines : List String
  pollTop : Bool
  stderrNow : String
  recv : Recv
  pollAtWrite : Bool
  writeErr : Option String
deriving DecidableEq

/-- Frames the reader task produces from a batch of stdout lines
(each nonempty line is sent `strip`ped, in order). -/
def outFrames (lines : List String) : List Event :=
  (lines.filter (fun l => !l.isEmpty)).map (fun l => Event.outFrame (pyStrip l))

/-- The frame reported when the loop observes process exit (lines 646–651):
an error frame when drained stderr is nonempty, a plain closed notice
otherwise. -/
def exitMsg (err : String) : String :=
  if err = "" then "Serial connection closed" else "Error: Port monitor error: " ++ err

/-- Events of one main-loop iteration, plus whether the loop continues. -/
def loopIter (st : LoopStep) : List Event × Bool :=
  let pre := outFrames st.stdoutLines
  if st.pollTop then
    -- process exited: drain stderr, report, break (lines 645–652)
    (pre ++ [Event.frame (exitMsg st.stderrNow)], false)
  else
    match st.recv with
    | Recv.timeout => (pre, true)
    | Recv.dataMsg s =>
      if st.pollAtWrite then
        -- process gone: discard the inbound frame, report (line 667)
        (pre ++ [Event.frame "Error: Serial connection is closed"], true)
      else
        match st.writeErr with
        | none => (pre ++ [Event.stdinWrite (s ++ "\n")], true)
        | some e => (pre ++ [Event.frame ("Error sending: " ++ e)], true)
    | Recv.disconnectEvt => (pre, false)
    | Recv.exc m => (pre ++ [Event.frame ("Error: " ++ m)], false)

def runLoop : List LoopStep → List Event
  | [] => []
  | st :: rest =>
    let r := loopIter st
    if r.2 then r.1 ++ runLoop rest else r.1

/-- Environment of one session: the outcomes of every external effect the
handler performs, in program order. -/
structure Config where
  port : String
  baudParam : Option String       -- websocket.query_params.get('baudrate')
  cliPathStr : String             -- str(bin_path / cli_command)
  cliExists : Bool                -- cli_path.exists()
  spawnErr : Option String        -- exception raised by subprocess.Popen, if any
  exitedImmediately : Bool        -- process.poll() is not None at line 632
  initialStderr : String          -- process.stderr.read() at line 634
  steps : List LoopStep
  stillRunningAtCleanup : Bool    -- process.poll() is None in the finally block
  gracefulStop : Bool             -- terminate(); wait(timeout=2) raised no exception
deriving DecidableEq

/-- `query_params.get('baudrate', '9600')`: the default applies only when the
parameter is absent; a present value is used verbatim, unvalidated. -/
def baudrate (cfg : Config) : String := cfg.baudParam.getD "9600"

/-- The argument vector of the monitor subprocess (lines 593–598). -/
def monitorCmd (cliPathStr port baud : String) : List String :=
  [cliPathStr, "monitor", "--port", port, "--config", "baudrate=" ++ baud]

/-- Whether `process` is non-`None` when the `finally` block runs. -/
def spawned (cfg : Config) : Bool := cfg.cliExists && cfg.spawnErr.isNone

/-- The `finally` block (lines 687–701): graceful terminate with a 2 s
bounded wait, forced kill if that raises, then socket deregistration. -/
def cleanupEvents (procAttached stillRunning graceful : Bool) : List Event :=
  (if procAttached && stillRunning then
    Event.terminate :: (if graceful then [] else [Event.kill])
  else []) ++ [Event.disconnect]

/-- Events of the `try` body, covering every exit path: missing executable
(lines 576–580), spawn failure (611–615), immediate process exit (632–638),
and the main loop. -/
def sessionBody (cfg : Config) : List Event :=
  if !cfg.cliExists then
    [Event.frame ("Error: Arduino CLI executable not found at " ++ cfg.cliPathStr)]
  else
    Event.frame ("Connecting to " ++ cfg.port ++ " at " ++ baudrate cfg ++ " baud...") ::
    match cfg.spawnErr with
    | some e => [Event.frame ("Error: Failed to start arduino-cli monitor: " ++ e)]
    | none =>
      Event.spawnProc (monitorCmd cfg.cliPathStr cfg.port (baudrate cfg)) ::
      if cfg.exitedImmediately then
        [Event.frame ("Error: Failed to connect to port " ++ cfg.port ++ ": "
          ++ cfg.initialStderr)]
      else
        Event.frame ("Connected to " ++ cfg.port ++ " at " ++ baudrate cfg ++ " baud") ::
        runLoop cfg.steps

/-- The complete observable trace of one `serial_websocket` session:
the `try` body followed by the `finally` cleanup, which Python runs on
every exit path (returns, breaks and exceptions alike). -/
def serial_websocket (cfg : Config) : List Event :=
  sessionBody cfg ++ cleanupEvents (spawned cfg) cfg.stillRunningAtCleanup cfg.gracefulStop

/-! ## Workspace file store (`get_file_by_query` lines 390–416, `save_file` 418–477)

Files are a map from real path to the byte content stored on disk
(contents are UTF-8 text, so the stored bytes are identified with the
string that was encoded).  Text-mode reads apply universal-newlines
translation; the save path writes with `newline=''` (no translation). -/

/-- `p :: ps` matches the front of the second list. -/
def startsWithChars : List Char → List Char → Bool
  | [], _ => true
  | _ :: _, [] => false
  | p :: ps, c :: cs => p = c && startsWithChars ps cs

/-- Python `s.startswith(pre)`. -/
def pyStartsWith (pre s : String) : Bool := startsWithChars pre.data s.data

/-- If `pat` matches the front of the list, the remainder after it. -/
def leadingMatch : List Char → List Char → Option (List Char)
  | [], l => some l
  | _ :: _, [] => none
  | p :: ps, c :: cs => if p = c then leadingMatch ps cs else none

/-- Python `s.replace(pat, '')` for a nonempty `pat`: delete every
occurrence, scanning left to right.  `fuel` bounds the recursion and is
instantiated with the length of the scanned list, which suffices because
each step consumes at least one character. -/
def removeOccAux (pat : List Char) : Nat → List Char → List Char
  | _, [] => []
  | 0, l => l
  | Nat.succ n, c :: cs =>
    match leadingMatch pat (c :: cs) with
    | some rest => removeOccAux pat n rest
    | none => c :: removeOccAux pat n cs

def pyReplaceEmpty (pat s : String) : String :=
  String.mk (removeOccAux pat.data s.data.length s.data)

/-- The virtual workspace path marker (`'/tmp/arduino_workspace/'`). -/
def workspaceVirtual : String := "/tmp/arduino_workspace/"

/-- The real workspace directory, `TEMP/arduino_workspace` (the join of the
`TEMP` environment directory with `"arduino_workspace"`). -/
def workspaceReal : String := "TEMP/arduino_workspace"

/-- The path rewrite both the read and the write endpoint perform:
`path.startswith('/tmp/arduino_workspace/')` →
`workspace_dir / path.replace('/tmp/arduino_workspace/', '')`. -/
def mapWorkspacePath (p : String) : String :=
  if pyStartsWith workspaceVirtual p then
    workspaceReal ++ "/" ++ pyReplaceEmpty workspaceVirtual p
  else p

/-- The name of the final path component (text after the last `/`). -/
def lastComponent (s : String) : List Char :=
  (s.data.reverse.takeWhile (fun c => c ≠ '/')).reverse

/-- `pathlib.Path(p).suffix`: the extension of the final component,
i.e. `name[i:]` for `i = name.rfind('.')` when `0 < i < len(name) - 1`,
otherwise the empty string. -/
def pySuffix (p : String) : List Char :=
  let name := lastComponent p
  let afterDot := (name.reverse.takeWhile (fun c => c ≠ '.')).reverse
  if afterDot.length = name.length then []
  else
    let i := name.length - afterDot.length - 1
    if 0 < i ∧ i < name.length - 1 then '.' :: afterDot else []

/-- `Path(p).suffix.lower()`. -/
def pySuffixLower (p : String) : String :=
  String.mk ((pySuffix p).map Char.toLower)

/-- Disk contents keyed by real path. -/
def Store : Type := String → Option String

def emptyStore : Store := fun _ => none

structure SaveOutcome where
  store : Store
  writeCount : Nat
  success : Bool

/-- `save_file` (lines 418–477): map the path, write the content with
`open(path, 'w', newline='')` (no newline translation, so the stored bytes
are the content itself); for `.ino`/`.fzz` files re-read in default text
mode (universal newlines) and, on mismatch, rewrite the UTF-8 encoding of
the same content in binary mode — a second write of identical bytes. -/
def save_file (st : Store) (p content : String) : SaveOutcome :=
  if pySuffixLower (mapWorkspacePath p) = ".ino" ∨
      pySuffixLower (mapWorkspacePath p) = ".fzz" then
    -- saved_content, the text-mode re-read, is pyUniversalNewlines content
    if pyUniversalNewlines content ≠ content then
      { store := fun q => if q = mapWorkspacePath p then some content else st q
        writeCount := 2, success := true }
    else
      { store := fun q => if q = mapWorkspacePath p then some content else st q
        writeCount := 1, success := true }
  else
    { store := fun q => if q = mapWorkspacePath p then some content else st q
      writeCount := 1, success := true }

/-- `get_file_by_query` (lines 390–416): map the path and, when the file
exists, return `Path.read_text()` — the stored bytes decoded with
universal-newlines translation; otherwise a not-found error (`none`). -/
def get_file_by_query (st : Store) (p : String) : Option String :=
  match st (mapWorkspacePath p) with
  | some bytes => some (pyUniversalNewlines bytes)
  | none => none

/-! ## Component SVG endpoint (`get_component_svg`, lines 991–1104) -/

/-- One `.fzp` descriptor file as the endpoint reads it: its stem, whether
`ET.parse` succeeds, and the root `title` attribute if present. -/
structure FzpFile where
  stem : String
  parseOk : Bool
  title : Option String
deriving DecidableEq

/-- The attributes of a parsed SVG root that the endpoint manipulates. -/
structure SvgDoc where
  viewBox : Option String
  width : Option String
  height : Option String
deriving DecidableEq

/-- An SVG asset file: its raw text and, when `ET.fromstring` succeeds,
the parsed root. -/
structure SvgAsset where
  raw : String
  parsed : Option SvgDoc
deriving DecidableEq

/-- The part-catalog filesystem: whether `fritzing-parts` exists, the
`.fzp` files in `glob` order, and the first SVG asset found among the
`core`/`contrib`/`user`/`obsolete` folders for a stem and view type. -/
structure PartsFs where
  dirExists : Bool
  fzpFiles : List FzpFile
  svgFor : String → String → Option SvgAsset

inductive SvgResponse
  | placeholder (width height : ℚ) (label : String)
  | raw (content : String)
  | processed (doc : SvgDoc)
deriving DecidableEq

/-- The lookup loop (lines 1011–1026): `component_count` reaches
`component_id` at the id-th file (1-based); if parsing that file fails the
component stays `None`. -/
def findComponent (files : List FzpFile) (id : Int) : Option FzpFile :=
  if 1 ≤ id then
    match files.get? (id - 1).toNat with
    | some f => if f.parseOk then some f else none
    | none => none
  else none

def componentTitle (f : FzpFile) : String := f.title.getD f.stem

/-- The component dict in this endpoint always carries the default
dimensions 72 × 93.6 (line 1022); processing (lines 1070–1093) keeps an
existing viewBox, inserts `"0 0 72 93.6"` otherwise, and overwrites the
width/height attributes with `str(72)` / `str(93.6)`.  If `ET.fromstring`
fails, the inner handler falls through to serving the original text. -/
def processSvg (a : SvgAsset) : SvgResponse :=
  match a.parsed with
  | none => SvgResponse.raw a.raw
  | some doc =>
    SvgResponse.processed
      { viewBox := some (doc.viewBox.getD "0 0 72 93.6")
        width := some "72", height := some "93.6" }

/-- `get_component_svg`: every branch answers with an `image/svg+xml`
response — a 64 × 64 placeholder when the parts directory is missing
(`FileNotFoundError` caught by the outer handler) or when no descriptor
matches the id; a placeholder at the component's default dimensions when
the asset file is absent; the (possibly reshaped) asset otherwise. -/
def get_component_svg (fs : PartsFs) (id : Int) (ty : String) : SvgResponse :=
  if !fs.dirExists then SvgResponse.placeholder 64 64 "Error"
  else
    match findComponent fs.fzpFiles id with
    | none => SvgResponse.placeholder 64 64 ("C" ++ toString id)
    | some f =>
      match fs.svgFor f.stem ty with
      | none => SvgResponse.placeholder 72 93.6 (componentTitle f)
      | some a => processSvg a

/-! ## `save_svg` (lines 1117–1144) -/

/-- The names defined at module level in `backend/server.py`: imports,
module constants, classes, and route handler functions.  This is the
namespace in which the `ARDUINO_WORKSPACE` lookup at line 1133 resolves. -/
def moduleGlobals : List String :=
  ["FastAPI", "APIRouter", "WebSocket", "WebSocketDisconnect", "HTTPException",
   "Request", "JSONResponse", "load_dotenv", "CORSMiddleware", "os", "logging",
   "json", "asyncio", "subprocess", "Path", "BaseModel", "Field", "List",
   "Dict", "Optional", "uuid", "datetime", "ROOT_DIR", "app", "api_router",
   "logger", "ConnectionManager", "manager", "FileContent", "CompileRequest",
   "UploadRequest", "LibraryRequest", "CoreRequest", "LibrarySearchRequest",
   "run_arduino_cli", "root", "get_boards", "get_available_boards",
   "search_libraries", "get_cores", "search_cores", "install_core",
   "uninstall_core", "get_ports", "get_libraries", "install_library",
   "uninstall_library", "compile_code", "upload_code", "get_file",
   "get_file_by_query", "save_file", "delete_file", "get_workspace",
   "serial_websocket", "get_components", "get_component_svg",
   "load_components", "save_svg", "shutdown_event"]

/-- Name resolution against the module globals: a `NameError` for any name
not defined there. -/
def lookupGlobal (n : String) : Except String String :=
  if n ∈ moduleGlobals then Except.ok n
  else Except.error ("name '" ++ n ++ "' is not defined")

structure SaveSvgResult where
  success : Bool
  errMsg : Option String
deriving DecidableEq

/-- Python `s.endswith(post)`. -/
def pyEndsWith (post s : String) : Bool :=
  startsWithChars post.data.reverse s.data.reverse

/-- `if not file_name.lower().endswith(".svg"): file_name += ".svg"`. -/
def ensureSvgExt (name : String) : String :=
  if pyEndsWith ".svg" name.toLower then name else name ++ ".svg"

/-- `save_svg`: reject empty/missing SVG content; otherwise build the
target path as `Path(ARDUINO_WORKSPACE) / file_name`, whose global-name
lookup raises `NameError` (caught by the handler's `except`, which returns
a failure response); only if the lookup succeeded would the content be
written. -/
def save_svg (svg fileName : Option String) (st : Store) :
    SaveSvgResult × Store :=
  match svg with
  | none => ({ success := false, errMsg := some "No SVG content provided" }, st)
  | some content =>
    if content = "" then
      ({ success := false, errMsg := some "No SVG content provided" }, st)
    else
      let fn := ensureSvgExt (fileName.getD "circuit.svg")
      match lookupGlobal "ARDUINO_WORKSPACE" with
      | Except.error e => ({ success := false, errMsg := some e }, st)
      | Except.ok ws =>
        ({ success := true, errMsg := none },
          fun q => if q = ws ++ "/" ++ fn then some content else st q)

/-! ## Helper lemmas -/

/-- Every frame pushed by the reader task is an `outFrame`. -/
theorem not_mem_outFrames_of_ne (e : Event) (lines : List String)
    (h : ∀ s, e ≠ Event.outFrame s) : e ∉ outFrames lines := by
  intro hmem
  simp only [outFrames, List.mem_map] at hmem
  obtain ⟨l, _, hl⟩ := hmem
  exact h (pyStrip l) hl.symm

def isTeardown : Event → Bool
  | Event.terminate => true
  | Event.kill => true
  | Event.disconnect => true
  | _ => false

theorem outFrames_not_teardown (lines : List String) :
    ∀ e ∈ outFrames lines, isTeardown e = false := by
  intro e he
  simp only [outFrames, List.mem_map] at he
  obtain ⟨l, _, rfl⟩ := he
  rfl

theorem loopIter_not_teardown (st : LoopStep) :
    ∀ e ∈ (loopIter st).1, isTeardown e = false := by
  obtain ⟨lines, pollTop, stderrNow, recv, pollAtWrite, writeErr⟩ := st
  intro e he
  cases pollTop <;> cases recv <;> cases pollAtWrite <;> cases writeErr <;>
    simp [loopIter] at he <;>
    first
    | exact outFrames_not_teardown _ _ he
    | (rcases he with he | rfl <;>
        first
        | exact outFrames_not_teardown _ _ he
        | rfl)

theorem runLoop_not_teardown (steps : List LoopStep) :
    ∀ e ∈ runLoop steps, isTeardown e = false := by
  induction steps with
  | nil => intro e he; simp [runLoop] at he
  | cons st rest ih =>
    intro e he
    simp only [runLoop] at he
    by_cases hc : (loopIter st).2
    · rw [if_pos hc] at he
      rcases List.mem_append.mp he with h | h
      · exact loopIter_not_teardown st e h
      · exact ih e h
    · rw [if_neg hc] at he
      exact loopIter_not_teardown st e he

theorem sessionBody_not_teardown (cfg : Config) :
    ∀ e ∈ sessionBody cfg, isTeardown e = false := by
  intro e he
  obtain ⟨port, baudParam, cliPathStr, cliExists, spawnErr, exited, istderr,
    steps, srac, gs⟩ := cfg
  cases cliExists <;> cases spawnErr <;> cases exited <;>
    simp [sessionBody] at he <;>
    first
    | (subst he; rfl)
    | (rcases he with rfl | rfl
       · rfl
       · rfl)
    | (rcases he with rfl | rfl | rfl
       · rfl
       · rfl
       · rfl)
    | (rcases he with rfl | rfl | rfl | he
       · rfl
       · rfl
       · rfl
       · exact runLoop_not_teardown _ _ he)

/-! ## Claim theorems -/

/-- Claim C1, counterexample: for the stdout line `" x\n"` (leading space,
trailing newline) the bridge delivers the frame `"x"`, not the
trailing-trimmed `" x"` the claim requires: leading whitespace is NOT
preserved. -/
theorem read_stdout_cex :
    read_stdout [(false, " x\n")] = ["x"] ∧ pyRstrip " x\n" = " x" ∧
    ("x" : String) ≠ " x" := by
  refine ⟨by decide, by decide, by decide⟩

/-- Claim C1 (amended): for every run of the reader task in which the
process stays alive and `readline` keeps returning (nonempty) lines, the
bridge delivers exactly one frame per line, in arrival order, each frame
equal to its line with BOTH leading and trailing whitespace stripped. -/
theorem read_stdout_frames (evts : List (Bool × String))
    (h : ∀ e ∈ evts, e.1 = false ∧ e.2.isEmpty = false) :
    read_stdout evts = evts.map (fun e => pyStrip e.2) ∧
    (read_stdout evts).length = evts.length := by
  have hmap : read_stdout evts = evts.map (fun e => pyStrip e.2) := by
    induction evts with
    | nil => rfl
    | cons e rest ih =>
      obtain ⟨h1, h2⟩ := h e (List.mem_cons_self ..)
      obtain ⟨b, line⟩ := e
      simp only at h1 h2
      subst h1
      simp [read_stdout, h2, ih (fun x hx => h x (List.mem_cons_of_mem _ hx))]
  exact ⟨hmap, by rw [hmap, List.length_map]⟩

theorem read_stdout_frames_witness :
    read_stdout [(false, "ab \n"), (false, " cd\n")] =
      [((false : Bool), "ab \n"), ((false : Bool), " cd\n")].map (fun e => pyStrip e.2) ∧
    (read_stdout [(false, "ab \n"), (false, " cd\n")]).length =
      ([((false : Bool), "ab \n"), ((false : Bool), " cd\n")] : List (Bool × String)).length :=
  read_stdout_frames _ (by decide)

/-- Claim C2: in every session whose executable is found, whose spawn
succeeds and whose process survives the initial liveness check, the trace
starts with the connecting frame, then the spawn, then the connected
frame; no subprocess-output frame precedes them. -/
theorem serial_connect_order (cfg : Config)
    (h1 : cfg.cliExists = true) (h2 : cfg.spawnErr = none)
    (h3 : cfg.exitedImmediately = false) :
    ∃ rest,
      serial_websocket cfg =
        Event.frame ("Connecting to " ++ cfg.port ++ " at " ++ baudrate cfg ++ " baud...") ::
        Event.spawnProc (monitorCmd cfg.cliPathStr cfg.port (baudrate cfg)) ::
        Event.frame ("Connected to " ++ cfg.port ++ " at " ++ baudrate cfg ++ " baud") ::
        rest ∧
      (∀ s, Event.outFrame s ∉
        [Event.frame ("Connecting to " ++ cfg.port ++ " at " ++ baudrate cfg ++ " baud..."),
         Event.spawnProc (monitorCmd cfg.cliPathStr cfg.port (baudrate cfg)),
         Event.frame ("Connected to " ++ cfg.port ++ " at " ++ baudrate cfg ++ " baud")]) := by
  refine ⟨runLoop cfg.steps ++
    cleanupEvents (spawned cfg) cfg.stillRunningAtCleanup cfg.gracefulStop, ?_, ?_⟩
  · simp [serial_websocket, sessionBody, h1, h2, h3]
  · intro s
    simp

def cfgC2 : Config :=
  { port := "COM7", baudParam := some "115200", cliPathStr := "bin/arduino-cli",
    cliExists := true, spawnErr := none, exitedImmediately := false,
    initialStderr := "", steps := [], stillRunningAtCleanup := true,
    gracefulStop := true }

theorem serial_connect_order_witness :
    ∃ rest,
      serial_websocket cfgC2 =
        Event.frame ("Connecting to " ++ cfgC2.port ++ " at " ++ baudrate cfgC2 ++ " baud...") ::
        Event.spawnProc (monitorCmd cfgC2.cliPathStr cfgC2.port (baudrate cfgC2)) ::
        Event.frame ("Connected to " ++ cfgC2.port ++ " at " ++ baudrate cfgC2 ++ " baud") ::
        rest ∧
      (∀ s, Event.outFrame s ∉
        [Event.frame ("Connecting to " ++ cfgC2.port ++ " at " ++ baudrate cfgC2 ++ " baud..."),
         Event.spawnProc (monitorCmd cfgC2.cliPathStr cfgC2.port (baudrate cfgC2)),
         Event.frame ("Connected to " ++ cfgC2.port ++ " at " ++ baudrate cfgC2 ++ " baud")]) :=
  serial_connect_order cfgC2 rfl rfl rfl

/-- Claim C3: when the monitoring executable is not found, the whole trace
is one diagnostic frame followed by the socket deregistration: nothing is
spawned, exactly one frame is emitted, the session ends at once. -/
theorem missing_cli_session (cfg : Config) (h : cfg.cliExists = false) :
    serial_websocket cfg =
      [Event.frame ("Error: Arduino CLI executable not found at " ++ cfg.cliPathStr),
       Event.disconnect] ∧
    (∀ cmd, Event.spawnProc cmd ∉ serial_websocket cfg) ∧
    (serial_websocket cfg).countP
      (fun e => match e with | Event.frame _ => true | _ => false) = 1 := by
  have heq : serial_websocket cfg =
      [Event.frame ("Error: Arduino CLI executable not found at " ++ cfg.cliPathStr),
       Event.disconnect] := by
    simp [serial_websocket, sessionBody, cleanupEvents, spawned, h]
  refine ⟨heq, ?_, ?_⟩
  · intro cmd
    rw [heq]
    simp
  · rw [heq]
    rfl

def cfgC3 : Config :=
  { port := "COM7", baudParam := none, cliPathStr := "bin/arduino-cli",
    cliExists := false, spawnErr := none, exitedImmediately := false,
    initialStderr := "", steps := [], stillRunningAtCleanup := false,
    gracefulStop := true }

theorem missing_cli_session_witness :
    serial_websocket cfgC3 =
      [Event.frame ("Error: Arduino CLI executable not found at " ++ cfgC3.cliPathStr),
       Event.disconnect] ∧
    (∀ cmd, Event.spawnProc cmd ∉ serial_websocket cfgC3) ∧
    (serial_websocket cfgC3).countP
      (fun e => match e with | Event.frame _ => true | _ => false) = 1 :=
  missing_cli_session cfgC3 rfl

def cfgC4 : Config :=
  { port := "COM7", baudParam := some "abc", cliPathStr := "bin/arduino-cli",
    cliExists := true, spawnErr := none, exitedImmediately := false,
    initialStderr := "", steps := [], stillRunningAtCleanup := true,
    gracefulStop := true }

/-- Claim C4, counterexample: with the baud-rate parameter present but
unparseable (`"abc"`), the session spawns the monitor configured with
`baudrate=abc` — the raw string is passed through, the default 9600 is NOT
substituted. -/
theorem baud_default_cex :
    baudrate cfgC4 = "abc" ∧
    Event.spawnProc (monitorCmd "bin/arduino-cli" "COM7" "abc") ∈ serial_websocket cfgC4 ∧
    Event.spawnProc (monitorCmd "bin/arduino-cli" "COM7" "9600") ∉ serial_websocket cfgC4 := by
  refine ⟨by decide, by decide, by decide⟩

/-- Claim C4 (amended): the spawned monitor is configured with the default
`"9600"` exactly when the baud-rate parameter is absent; a present value —
parseable or not — is passed through verbatim. -/
theorem baud_passthrough (cfg : Config)
    (h1 : cfg.cliExists = true) (h2 : cfg.spawnErr = none) :
    Event.spawnProc (monitorCmd cfg.cliPathStr cfg.port (baudrate cfg)) ∈
      serial_websocket cfg ∧
    baudrate cfg = (match cfg.baudParam with | none => "9600" | some b => b) := by
  constructor
  · by_cases hex : cfg.exitedImmediately <;>
      simp [serial_websocket, sessionBody, h1, h2, hex]
  · rcases hb : cfg.baudParam with _ | b <;> simp [baudrate, hb]

theorem baud_passthrough_witness :
    Event.spawnProc (monitorCmd cfgC4.cliPathStr cfgC4.port (baudrate cfgC4)) ∈
      serial_websocket cfgC4 ∧
    baudrate cfgC4 = (match cfgC4.baudParam with | none => "9600" | some b => b) :=
  baud_passthrough cfgC4 rfl rfl

/-- Claim C5: in a loop iteration that receives an inbound frame, if the
process has already exited the bridge emits the connection-closed error
frame and writes nothing to stdin; if the process is alive (and the write
raises no I/O error) the frame is written to stdin with a trailing newline
and flushed, and the loop continues. -/
theorem inbound_forwarding (st : LoopStep) (s : String)
    (htop : st.pollTop = false) (hrecv : st.recv = Recv.dataMsg s) :
    (st.pollAtWrite = true →
      loopIter st = (outFrames st.stdoutLines ++
        [Event.frame "Error: Serial connection is closed"], true) ∧
      ∀ t, Event.stdinWrite t ∉ (loopIter st).1) ∧
    (st.pollAtWrite = false → st.writeErr = none →
      loopIter st = (outFrames st.stdoutLines ++
        [Event.stdinWrite (s ++ "\n")], true)) := by
  constructor
  · intro hw
    have heq : loopIter st = (outFrames st.stdoutLines ++
        [Event.frame "Error: Serial connection is closed"], true) := by
      simp [loopIter, htop, hrecv, hw]
    refine ⟨heq, ?_⟩
    intro t
    rw [heq]
    intro hmem
    rcases List.mem_append.mp hmem with h | h
    · exact not_mem_outFrames_of_ne _ _ (fun _ => by simp) h
    · simp at h
  · intro hw hwe
    simp [loopIter, htop, hrecv, hw, hwe]

def stepC5 : LoopStep :=
  { stdoutLines := [], pollTop := false, stderrNow := "",
    recv := Recv.dataMsg "LEDON", pollAtWrite := true, writeErr := none }

theorem inbound_forwarding_witness :
    (stepC5.pollAtWrite = true →
      loopIter stepC5 = (outFrames stepC5.stdoutLines ++
        [Event.frame "Error: Serial connection is closed"], true) ∧
      ∀ t, Event.stdinWrite t ∉ (loopIter stepC5).1) ∧
    (stepC5.pollAtWrite = false → stepC5.writeErr = none →
      loopIter stepC5 = (outFrames stepC5.stdoutLines ++
        [Event.stdinWrite ("LEDON" ++ "\n")], true)) :=
  inbound_forwarding stepC5 "LEDON" rfl rfl

/-- Claim C6: for every session, whatever caused termination (socket close,
process exit, exception mid-loop, or the early error returns), the trace
ends with exactly one teardown: the socket deregistration is its last event
and occurs nowhere else, the body emits no teardown action, and when a
process is still attached and running at cleanup a graceful terminate
(bounded 2 s wait) is issued, escalated to a forced kill when that wait
fails. -/
theorem teardown_exactly_once (cfg : Config) :
    (∃ pre, serial_websocket cfg = pre ++ [Event.disconnect] ∧
      Event.disconnect ∉ pre ∧
      ∀ e ∈ sessionBody cfg, isTeardown e = false) ∧
    (spawned cfg = true → cfg.stillRunningAtCleanup = true →
      Event.terminate ∈ serial_websocket cfg ∧
      (cfg.gracefulStop = false → Event.kill ∈ serial_websocket cfg)) := by
  constructor
  · refine ⟨sessionBody cfg ++
      (if spawned cfg && cfg.stillRunningAtCleanup then
        Event.terminate :: (if cfg.gracefulStop then [] else [Event.kill])
      else []), ?_, ?_, sessionBody_not_teardown cfg⟩
    · simp [serial_websocket, cleanupEvents]
    · intro hmem
      rcases List.mem_append.mp hmem with h | h
      · have := sessionBody_not_teardown cfg _ h
        simp [isTeardown] at this
      · by_cases hc : spawned cfg && cfg.stillRunningAtCleanup
        · rw [if_pos hc] at h
          by_cases hg : cfg.gracefulStop <;> simp [hg] at h
        · rw [if_neg hc] at h
          simp at h
  · intro h1 h2
    have hcl : cleanupEvents (spawned cfg) cfg.stillRunningAtCleanup cfg.gracefulStop =
        Event.terminate :: (if cfg.gracefulStop then [] else [Event.kill]) ++
          [Event.disconnect] := by
      simp [cleanupEvents, h1, h2]
    constructor
    · apply List.mem_append.mpr
      right
      rw [hcl]
      exact List.mem_cons_self ..
    · intro hg
      apply List.mem_append.mpr
      right
      rw [hcl]
      simp [hg]

def cfgC6 : Config :=
  { port := "COM3", baudParam := none, cliPathStr := "bin/arduino-cli",
    cliExists := true, spawnErr := none, exitedImmediately := false,
    initialStderr := "",
    steps := [{ stdoutLines := ["data\n"], pollTop := false, stderrNow := "",
                recv := Recv.exc "boom", pollAtWrite := false, writeErr := none }],
    stillRunningAtCleanup := true, gracefulStop := false }

theorem teardown_exactly_once_witness :
    (∃ pre, serial_websocket cfgC6 = pre ++ [Event.disconnect] ∧
      Event.disconnect ∉ pre ∧
      ∀ e ∈ sessionBody cfgC6, isTeardown e = false) ∧
    (spawned cfgC6 = true → cfgC6.stillRunningAtCleanup = true →
      Event.terminate ∈ serial_websocket cfgC6 ∧
      (cfgC6.gracefulStop = false → Event.kill ∈ serial_websocket cfgC6)) :=
  teardown_exactly_once cfgC6

/-- After `save_file`, the real path mapped from `p` holds exactly the
written content (both the text-mode write with `newline=''` and the
binary-mode rewrite store the same bytes). -/
theorem save_file_store_at (st : Store) (p X : String) :
    (save_file st p X).store (mapWorkspacePath p) = some X := by
  unfold save_file
  split
  · split <;> simp
  · simp

/-- Claim C7, counterexample: writing `"a\r\nb"` to the virtual path
`/tmp/arduino_workspace/a.ino` and reading it back yields `"a\nb"`, not the
original content — the text-mode read applies universal-newlines
translation that the `newline=''` write did not. -/
theorem roundtrip_cex :
    get_file_by_query
        (save_file emptyStore "/tmp/arduino_workspace/a.ino" "a\r\nb").store
        "/tmp/arduino_workspace/a.ino" = some "a\nb" ∧
    ("a\nb" : String) ≠ "a\r\nb" := by
  refine ⟨by decide, by decide⟩

/-- Claim C7 (amended): the workspace write/read round trip returns the
written content with universal-newlines translation applied (`\r\n` and
lone `\r` become `\n`); it returns the content exactly if and only if the
content contains no carriage return. -/
theorem roundtrip (st : Store) (p X : String) :
    get_file_by_query (save_file st p X).store p = some (pyUniversalNewlines X) ∧
    (pyUniversalNewlines X = X ↔ hasCR X = false) := by
  constructor
  · unfold get_file_by_query
    rw [save_file_store_at]
  · exact pyUniversalNewlines_eq_self_iff X

theorem roundtrip_witness :
    get_file_by_query
        (save_file emptyStore "/tmp/arduino_workspace/b.txt" "hello").store
        "/tmp/arduino_workspace/b.txt" = some (pyUniversalNewlines "hello") ∧
    (pyUniversalNewlines "hello" = "hello" ↔ hasCR "hello" = false) :=
  roundtrip emptyStore "/tmp/arduino_workspace/b.txt" "hello"

/-- Claim C8, counterexample: saving `"a\r\nb"` to a `.ino` workspace file
performs TWO write attempts — the verification re-read mismatches and the
save is retried in binary mode — so the system does perform an automatic
retry. -/
theorem no_retry_cex :
    (save_file emptyStore "/tmp/arduino_workspace/a.ino" "a\r\nb").writeCount = 2 ∧
    (2 : Nat) ≠ 1 := by
  refine ⟨by decide, by decide⟩

/-- Claim C8 (amended): the only automatic retry in the system is inside
`save_file`: the write is attempted twice exactly when the target path has
a `.ino`/`.fzz` extension and the content contains a carriage return
(making the text-mode verification re-read mismatch); every other save
performs a single write, and no attempt count ever exceeds two. -/
theorem save_file_write_count (st : Store) (p X : String) :
    (save_file st p X).writeCount ≤ 2 ∧
    ((save_file st p X).writeCount = 2 ↔
      ((pySuffixLower (mapWorkspacePath p) = ".ino" ∨
        pySuffixLower (mapWorkspacePath p) = ".fzz") ∧ hasCR X = true)) := by
  have hiff := pyUniversalNewlines_eq_self_iff X
  unfold save_file
  split
  · rename_i hext
    split
    · rename_i hmis
      refine ⟨by simp, ?_⟩
      simp only [true_iff]
      refine ⟨hext, ?_⟩
      rcases Bool.eq_false_or_eq_true (hasCR X) with h | h
      · exact h
      · exact absurd (hiff.mpr h) hmis
    · rename_i hmis
      rw [not_not] at hmis
      refine ⟨by simp, ?_⟩
      simp only [OfNat.one_ne_ofNat, false_iff, not_and]
      intro _
      rw [hiff.mp hmis]
      simp
  · rename_i hext
    refine ⟨by simp, ?_⟩
    simp only [OfNat.one_ne_ofNat, false_iff, not_and]
    intro h
    exact absurd h hext

theorem save_file_write_count_witness :
    (save_file emptyStore "/tmp/arduino_workspace/c.txt" "x").writeCount ≤ 2 ∧
    ((save_file emptyStore "/tmp/arduino_workspace/c.txt" "x").writeCount = 2 ↔
      ((pySuffixLower (mapWorkspacePath "/tmp/arduino_workspace/c.txt") = ".ino" ∨
        pySuffixLower (mapWorkspacePath "/tmp/arduino_workspace/c.txt") = ".fzz") ∧
        hasCR "x" = true)) :=
  save_file_write_count emptyStore "/tmp/arduino_workspace/c.txt" "x"

def pfsEmpty : PartsFs :=
  { dirExists := true, fzpFiles := [], svgFor := fun _ _ => none }

/-- Claim C9, counterexample: a graphic request for an id with no matching
descriptor file returns the 64 × 64 placeholder labelled `C1`, not a
placeholder of the default size 72 × 93.6 that the claim requires. -/
theorem svg_placeholder_cex :
    get_component_svg pfsEmpty 1 "breadboard" = SvgResponse.placeholder 64 64 "C1" ∧
    (64 : ℚ) ≠ 72 ∧ (64 : ℚ) ≠ 93.6 := by
  refine ⟨by decide, by norm_num, by norm_num⟩

/-- Claim C9 (amended): the endpoint never answers with an error: a missing
parts directory yields a well-formed 64 × 64 placeholder labelled `Error`
(the `FileNotFoundError` is caught by the outer handler); a missing
descriptor yields a well-formed 64 × 64 placeholder labelled with the id;
a found descriptor whose asset file is missing yields a placeholder at the
default dimensions 72 × 93.6 labelled with the title; an asset that fails
to parse is served as its original raw text. -/
theorem svg_fallback (fs : PartsFs) (id : Int) (ty : String) :
    (fs.dirExists = false →
      get_component_svg fs id ty = SvgResponse.placeholder 64 64 "Error") ∧
    (fs.dirExists = true → findComponent fs.fzpFiles id = none →
      get_component_svg fs id ty =
        SvgResponse.placeholder 64 64 ("C" ++ toString id)) ∧
    (∀ f, fs.dirExists = true → findComponent fs.fzpFiles id = some f →
      fs.svgFor f.stem ty = none →
      get_component_svg fs id ty =
        SvgResponse.placeholder 72 93.6 (componentTitle f)) ∧
    (∀ f a, fs.dirExists = true → findComponent fs.fzpFiles id = some f →
      fs.svgFor f.stem ty = some a → a.parsed = none →
      get_component_svg fs id ty = SvgResponse.raw a.raw) := by
  refine ⟨?_, ?_, ?_, ?_⟩
  · intro hdir
    simp [get_component_svg, hdir]
  · intro hdir hf
    simp [get_component_svg, hdir, hf]
  · intro f hdir hf hs
    simp [get_component_svg, hdir, hf, hs]
  · intro f a hdir hf hs hp
    simp [get_component_svg, processSvg, hdir, hf, hs, hp]

theorem svg_fallback_witness :
    (pfsEmpty.dirExists = false →
      get_component_svg pfsEmpty 2 "icon" = SvgResponse.placeholder 64 64 "Error") ∧
    (pfsEmpty.dirExists = true → findComponent pfsEmpty.fzpFiles 2 = none →
      get_component_svg pfsEmpty 2 "icon" =
        SvgResponse.placeholder 64 64 ("C" ++ toString (2 : Int))) ∧
    (∀ f, pfsEmpty.dirExists = true → findComponent pfsEmpty.fzpFiles 2 = some f →
      pfsEmpty.svgFor f.stem "icon" = none →
      get_component_svg pfsEmpty 2 "icon" =
        SvgResponse.placeholder 72 93.6 (componentTitle f)) ∧
    (∀ f a, pfsEmpty.dirExists = true → findComponent pfsEmpty.fzpFiles 2 = some f →
      pfsEmpty.svgFor f.stem "icon" = some a → a.parsed = none →
      get_component_svg pfsEmpty 2 "icon" = SvgResponse.raw a.raw) :=
  svg_fallback pfsEmpty 2 "icon"

/-- Claim C10: every `save_svg` request with nonempty SVG content fails and
writes nothing: the name `ARDUINO_WORKSPACE` used to build the target path
is not defined anywhere at module level, so path construction raises a
`NameError` that the handler converts into a failure response. -/
theorem save_svg_always_fails (svg fileName : Option String) (st : Store)
    (s : String) (h1 : svg = some s) (h2 : s ≠ "") :
    (save_svg svg fileName st).1.success = false ∧
    (save_svg svg fileName st).2 = st := by
  subst h1
  have hx : lookupGlobal "ARDUINO_WORKSPACE" =
      Except.error "name 'ARDUINO_WORKSPACE' is not defined" := by rfl
  simp [save_svg, h2, hx]

theorem save_svg_always_fails_witness :
    (save_svg (some "<svg/>") none emptyStore).1.success = false ∧
    (save_svg (some "<svg/>") none emptyStore).2 = emptyStore :=
  save_svg_always_fails (some "<svg/>") none emptyStore "<svg/>" rfl (by decide)

end ArduinoBackend
